import Mathlib

/-
  Verification development for a browser chat client built around an
  in-browser inference engine.

  The embedding covers:
  - the conversation store reducers (createConversation, deleteConversation,
    updateConversationTitle, addMessage, clearChat, updateMessage, and the
    title derivation helper generateTitle);
  - the single-log chat slice used by the hooks (addMessage, setLoading,
    setError, setModelStatus, setLoadProgress, clearChat, clearError);
  - the engine service (initialize with its unload-before-construct step,
    chat with its not-ready and missing-content guards, and the progress
    percentage mapping);
  - the hook-level operations sendMessage and loadModel, which compose the
    slice reducers with the service.

  Timestamps produced by the runtime clock are passed in explicitly as
  natural numbers; the outcome of each external engine call is passed in as
  an explicit value so that state evolution stays a pure function.
-/

namespace DeepseekChat

/-- Apply f to the first element of the list satisfying p, leaving the rest
unchanged. This models the JavaScript pattern of Array.find followed by an
in-place mutation of the found element. -/
def modifyFirst {α : Type} (p : α → Bool) (f : α → α) : List α → List α
  | [] => []
  | a :: as => if p a then f a :: as else a :: modifyFirst p f as

theorem modifyFirst_append {α : Type} (p : α → Bool) (f : α → α)
    (pre : List α) (c : α) (post : List α)
    (hpre : ∀ a ∈ pre, p a = false) (hc : p c = true) :
    modifyFirst p f (pre ++ c :: post) = pre ++ f c :: post := by
  induction pre with
  | nil => simp [modifyFirst, hc]
  | cons a as ih =>
      have ha : p a = false := hpre a (List.mem_cons_self a as)
      simp only [List.cons_append, modifyFirst, ha, Bool.false_eq_true, if_false,
        List.cons.injEq, true_and]
      exact ih fun x hx => hpre x (List.mem_cons_of_mem a hx)

theorem modifyFirst_map_eq {α β : Type} (p : α → Bool) (f : α → α) (g : α → β)
    (h : ∀ a, g (f a) = g a) (l : List α) :
    (modifyFirst p f l).map g = l.map g := by
  induction l with
  | nil => rfl
  | cons a as ih =>
      by_cases hp : p a = true
      · simp [modifyFirst, hp, h a]
      · simp only [Bool.not_eq_true] at hp
        simp [modifyFirst, hp, ih]

theorem findIdx_append_cons {α : Type} (p : α → Bool)
    (pre : List α) (c : α) (post : List α)
    (hpre : ∀ a ∈ pre, p a = false) (hc : p c = true) :
    (pre ++ c :: post).findIdx? p = some pre.length := by
  induction pre with
  | nil => simp [List.findIdx?, hc]
  | cons a as ih =>
      have ha : p a = false := hpre a (List.mem_cons_self a as)
      have ih2 := ih fun x hx => hpre x (List.mem_cons_of_mem a hx)
      simp [List.findIdx?_cons, ha, ih2]

theorem eraseIdx_append_cons {α : Type} (pre : List α) (c : α) (post : List α) :
    (pre ++ c :: post).eraseIdx pre.length = pre ++ post := by
  induction pre with
  | nil => rfl
  | cons a as ih => simp [List.eraseIdx, ih]

/-- The JavaScript String.prototype.trim operation: drop leading and
trailing whitespace characters. -/
def jsTrim (s : String) : String :=
  String.mk (((s.data.dropWhile Char.isWhitespace).reverse.dropWhile
    Char.isWhitespace).reverse)

/-- Message roles form a closed tag set. -/
inductive Role where
  | user
  | assistant
  | system
deriving DecidableEq

/-- Boolean test mirroring the JavaScript comparison of role with the
string literal for the user role. -/
def Role.isUser : Role → Bool
  | .user => true
  | _ => false

theorem Role.isUser_iff (r : Role) : r.isUser = true ↔ r = Role.user := by
  cases r <;> simp [Role.isUser]

/-- A chat message as stored in application state. -/
structure ChatMessage where
  id : String
  role : Role
  content : String
  timestamp : Nat
deriving DecidableEq

/-- Model lifecycle status. -/
inductive ModelStatus where
  | idle
  | loading
  | ready
  | error
deriving DecidableEq

/-- Error categories used by the engine service. -/
inductive WebLLMErrorType where
  | NOT_INITIALIZED
  | WEBGPU_NOT_SUPPORTED
  | INSUFFICIENT_MEMORY
  | NETWORK_ERROR
  | GENERATION_ERROR
deriving DecidableEq

/-- A thrown JavaScript error: either a typed service error or a plain
Error carrying only a message. -/
inductive JsError where
  | webllm (msg : String) (etype : WebLLMErrorType)
  | plain (msg : String)
deriving DecidableEq

/-- The message property of a thrown error. -/
def JsError.message : JsError → String
  | .webllm m _ => m
  | .plain m => m

namespace Store

/-- A conversation record. -/
structure Conversation where
  id : String
  title : String
  messages : List ChatMessage
  createdAt : Nat
  updatedAt : Nat
deriving DecidableEq

/-- Application state of the conversation store slice. -/
structure ChatState where
  conversations : List Conversation
  activeConversationId : Option String
  isLoading : Bool
  error : Option String
  modelStatus : ModelStatus
  loadProgress : Int
deriving DecidableEq

/-- Initial state of the conversation store slice. -/
def initialState : ChatState :=
  { conversations := []
    activeConversationId := none
    isLoading := false
    error := none
    modelStatus := ModelStatus.idle
    loadProgress := 0 }

/-- Title derivation from message content: at most 50 characters are kept,
and a truncated title receives a three character ellipsis marker. The
JavaScript substring of the first 50 code units is modelled as taking the
first 50 characters. -/
def generateTitle (content : String) : String :=
  let maxLength := 50
  if content.length ≤ maxLength then content
  else String.mk (content.data.take maxLength) ++ "..."

/-- Reducer createConversation: push the new conversation and make it
active. -/
def createConversation (s : ChatState) (c : Conversation) : ChatState :=
  { s with conversations := s.conversations ++ [c]
           activeConversationId := some c.id }

/-- Reducer deleteConversation: remove the first conversation with the
given id; if it was active, the first remaining conversation (if any)
becomes active. -/
def deleteConversation (s : ChatState) (cid : String) : ChatState :=
  match s.conversations.findIdx? (fun c => c.id == cid) with
  | none => s
  | some i =>
      let convs := s.conversations.eraseIdx i
      if s.activeConversationId == some cid then
        { s with conversations := convs
                 activeConversationId := (convs.head?).map Conversation.id }
      else
        { s with conversations := convs }

/-- Reducer setActiveConversation. -/
def setActiveConversation (s : ChatState) (cid : String) : ChatState :=
  { s with activeConversationId := some cid }

/-- Reducer updateConversationTitle: set the title of the first
conversation with the given id. Note that this reducer does not touch
updatedAt. -/
def updateConversationTitle (s : ChatState) (cid title : String) : ChatState :=
  let convs :=
    modifyFirst (fun (c : Conversation) => c.id == cid) (fun c => { c with title := title })
      s.conversations
  { s with conversations := convs }

/-- Per-conversation effect of the addMessage reducer: push the message,
refresh updatedAt, and derive the title when the pushed message is the
first user message of the log. The slice over all but the last element of
the post-push log equals the pre-push log. -/
def addMessageToConv (c : Conversation) (msg : ChatMessage) (now : Nat) :
    Conversation :=
  let c1 := { c with messages := c.messages ++ [msg], updatedAt := now }
  if msg.role.isUser && !(c.messages.any (fun m => m.role.isUser)) then
    { c1 with title := generateTitle msg.content }
  else
    c1

/-- Reducer addMessage: append to the active conversation when one exists;
otherwise no effect. -/
def addMessage (s : ChatState) (msg : ChatMessage) (now : Nat) : ChatState :=
  match s.activeConversationId with
  | none => s
  | some aid =>
      let convs :=
        modifyFirst (fun (c : Conversation) => c.id == aid) (fun c => addMessageToConv c msg now)
          s.conversations
      { s with conversations := convs }

/-- Reducer clearChat: empty the active conversation log, refresh its
updatedAt, and clear the error field. -/
def clearChat (s : ChatState) (now : Nat) : ChatState :=
  let s1 :=
    match s.activeConversationId with
    | none => s
    | some aid =>
        let convs :=
          modifyFirst (fun (c : Conversation) => c.id == aid)
            (fun (c : Conversation) => { c with messages := [], updatedAt := now })
            s.conversations
        { s with conversations := convs }
  { s1 with error := none }

/-- Reducer updateMessage: rewrite the content of the message with the
given id inside the active conversation and refresh updatedAt; no effect
when the message is absent. -/
def updateMessage (s : ChatState) (mid content : String) (now : Nat) :
    ChatState :=
  match s.activeConversationId with
  | none => s
  | some aid =>
      let updConv : Conversation → Conversation := fun c =>
        if c.messages.any (fun m => m.id == mid) then
          let msgs :=
            modifyFirst (fun (m : ChatMessage) => m.id == mid)
              (fun m => { m with content := content }) c.messages
          { c with messages := msgs, updatedAt := now }
        else c
      let convs := modifyFirst (fun (c : Conversation) => c.id == aid) updConv s.conversations
      { s with conversations := convs }

end Store

namespace Slice

/-- Application state of the single-log chat slice used by the hooks. -/
structure ChatState where
  messages : List ChatMessage
  isLoading : Bool
  error : Option String
  modelStatus : ModelStatus
  loadProgress : Int
deriving DecidableEq

/-- Initial state of the single-log chat slice. -/
def initialState : ChatState :=
  { messages := []
    isLoading := false
    error := none
    modelStatus := ModelStatus.idle
    loadProgress := 0 }

/-- Reducer addMessage: push a message onto the log. -/
def addMessage (s : ChatState) (m : ChatMessage) : ChatState :=
  { s with messages := s.messages ++ [m] }

/-- Reducer setLoading. -/
def setLoading (s : ChatState) (b : Bool) : ChatState :=
  { s with isLoading := b }

/-- Reducer setError. -/
def setError (s : ChatState) (e : Option String) : ChatState :=
  { s with error := e }

/-- Reducer setModelStatus. -/
def setModelStatus (s : ChatState) (st : ModelStatus) : ChatState :=
  { s with modelStatus := st }

/-- Reducer setLoadProgress. -/
def setLoadProgress (s : ChatState) (p : Int) : ChatState :=
  { s with loadProgress := p }

/-- Reducer clearChat: empty the log and clear the error field. -/
def clearChat (s : ChatState) : ChatState :=
  { s with messages := [], error := none }

/-- Reducer clearError. -/
def clearError (s : ChatState) : ChatState :=
  { s with error := none }

end Slice

namespace WebLLM

/-- Resident state of the engine service: the optional engine instance
(identified by an opaque number) and the ready flag. -/
structure ServiceState where
  engine : Option Nat
  ready : Bool
  initStartTime : Nat
deriving DecidableEq

/-- Service state before any initialization. -/
def freshService : ServiceState :=
  { engine := none, ready := false, initStartTime := 0 }

/-- The message object inside a completion choice; content may be absent
(null or undefined in the source). -/
structure EngineChoiceMessage where
  content : Option String
deriving DecidableEq

/-- One completion choice. -/
structure EngineChoice where
  message : EngineChoiceMessage
deriving DecidableEq

/-- The completion response returned by the engine. -/
structure EngineResponse where
  choices : List EngineChoice
deriving DecidableEq

/-- The optional content of the first choice, mirroring the optional
chaining over choices, message and content. -/
def EngineResponse.firstContent (r : EngineResponse) : Option String :=
  r.choices.head?.bind fun ch => ch.message.content

/-- The chat method: guard on a resident, ready engine; then either
propagate the engine failure unchanged, fail on absent content, or return
the content (even when it is the empty string). -/
def chat (svc : ServiceState) (engineResult : Except JsError EngineResponse) :
    Except JsError String :=
  if svc.engine.isNone || !svc.ready then
    Except.error (JsError.webllm "Engine not initialized" WebLLMErrorType.NOT_INITIALIZED)
  else
    match engineResult with
    | Except.error e => Except.error e
    | Except.ok resp =>
        match resp.firstContent with
        | none => Except.error (JsError.plain "No content in response")
        | some content => Except.ok content

/-- Observable engine-level events emitted by initialize. -/
inductive EngineEvent where
  | unload
  | construct
deriving DecidableEq

/-- The unload-before-construct step at the top of initialize: when an
engine is resident and ready it is unloaded and the state cleared. -/
def unloadIfLoaded (svc : ServiceState) : ServiceState × List EngineEvent :=
  if svc.ready && svc.engine.isSome then
    ({ svc with engine := none, ready := false }, [EngineEvent.unload])
  else
    (svc, [])

/-- The initialize method. The outcome of engine construction is an
explicit input: on success the new engine becomes resident and ready, on
failure the service holds no engine, is not ready, and the failure is
propagated unchanged (returned as the third component). The event list
records the unload and construction calls in order. -/
def initEngine (svc : ServiceState) (outcome : Except JsError Nat) (now : Nat) :
    ServiceState × List EngineEvent × Option JsError :=
  let step := unloadIfLoaded svc
  let svc1 := { step.1 with initStartTime := now }
  match outcome with
  | Except.ok e =>
      ({ svc1 with engine := some e, ready := true },
        step.2 ++ [EngineEvent.construct], none)
  | Except.error err =>
      ({ svc1 with engine := none, ready := false },
        step.2 ++ [EngineEvent.construct], some err)

/-- JavaScript Math.round for the values arising here: floor of x + 1/2
(ties round toward positive infinity). -/
def jsRound (x : Rat) : Int := ⌊x + 1 / 2⌋

/-- The percentage the service reports to its progress callback, computed
from the fractional progress reported by the engine. -/
def progressPercent (fraction : Rat) : Int := jsRound (fraction * 100)

end WebLLM

namespace Hooks

/-- Result of one sendMessage call: the resulting slice state and whether
the service chat method was invoked. -/
structure SendOutcome where
  state : Slice.ChatState
  chatInvoked : Bool
deriving DecidableEq

/-- The sendMessage operation of the chat hook. The raw text is trimmed;
when the trimmed text is empty or no service handle is present the call
returns without any effect. Otherwise the user message is appended, the
generating flag is set, the error is cleared, and the service chat method
is invoked; its outcome (success text or thrown error) determines whether
an assistant message is appended or the error recorded; the generating
flag is cleared unconditionally at the end. The clock values for the user
and assistant message ids and timestamps are passed explicitly. -/
def sendMessage (s : Slice.ChatState) (svc : Option WebLLM.ServiceState)
    (engineResult : Except JsError WebLLM.EngineResponse)
    (content : String) (nowUser nowAsst : Nat) : SendOutcome :=
  let trimmedContent := jsTrim content
  if trimmedContent.isEmpty || svc.isNone then
    { state := s, chatInvoked := false }
  else
    match svc with
    | none => { state := s, chatInvoked := false }
    | some svcState =>
        let userMessage : ChatMessage :=
          { id := "user-" ++ toString nowUser
            role := Role.user
            content := trimmedContent
            timestamp := nowUser }
        let s1 := Slice.setError (Slice.setLoading (Slice.addMessage s userMessage) true) none
        match WebLLM.chat svcState engineResult with
        | Except.ok text =>
            let assistantMessage : ChatMessage :=
              { id := "assistant-" ++ toString nowAsst
                role := Role.assistant
                content := text
                timestamp := nowAsst }
            { state := Slice.setLoading (Slice.addMessage s1 assistantMessage) false
              chatInvoked := true }
        | Except.error e =>
            { state := Slice.setLoading (Slice.setError s1 (some e.message)) false
              chatInvoked := true }

/-- The dispatches performed when loadModel enters the loading state:
status to loading and progress to 0. No other field is written. -/
def loadModelEnterLoading (s : Slice.ChatState) : Slice.ChatState :=
  Slice.setLoadProgress (Slice.setModelStatus s ModelStatus.loading) 0

/-- The loadModel operation of the model lifecycle hook. The fractional
progress values the engine reports during initialization are passed as a
list; each one is forwarded to the store through the service percentage
mapping. On success the status becomes ready and the progress 100; on a
failure the status becomes error and the failure message is recorded,
leaving the progress at its last value. -/
def loadModel (s : Slice.ChatState) (progressEvents : List Rat)
    (outcome : Except JsError Nat) : Slice.ChatState :=
  let s1 := loadModelEnterLoading s
  let s2 := progressEvents.foldl
    (fun st p => Slice.setLoadProgress st (WebLLM.progressPercent p)) s1
  match outcome with
  | Except.ok _ =>
      Slice.setLoadProgress (Slice.setModelStatus s2 ModelStatus.ready) 100
  | Except.error e =>
      Slice.setError (Slice.setModelStatus s2 ModelStatus.error) (some e.message)

end Hooks

/-
  Concrete fixtures used by counterexamples and witnesses.
-/

/-- A conversation with an empty log. -/
def convEmpty : Store.Conversation :=
  { id := "c1", title := "New Chat", messages := [], createdAt := 0, updatedAt := 0 }

/-- A second conversation. -/
def convTwo : Store.Conversation :=
  { id := "c2", title := "T2", messages := [], createdAt := 0, updatedAt := 0 }

/-- A third conversation. -/
def convThree : Store.Conversation :=
  { id := "c3", title := "T3", messages := [], createdAt := 0, updatedAt := 0 }

/-- A store state holding one active empty conversation. -/
def stateOne : Store.ChatState :=
  { Store.initialState with
      conversations := [convEmpty], activeConversationId := some "c1" }

/-- A store state holding three conversations with the middle one active. -/
def stateThree : Store.ChatState :=
  { Store.initialState with
      conversations := [convEmpty, convTwo, convThree]
      activeConversationId := some "c2" }

/-- A user message with short content. -/
def msgHello : ChatMessage :=
  { id := "m1", role := Role.user, content := "Hello there", timestamp := 3 }

/-- A user message whose content is 60 characters long. -/
def msgLong : ChatMessage :=
  { id := "m2", role := Role.user, content := String.mk (List.replicate 60 'A')
    timestamp := 4 }

/-- A single-log slice state carrying a stale error from a previous failed
turn. -/
def stateSliceErr : Slice.ChatState :=
  { Slice.initialState with error := some "previous failure" }

/-- A ready service with a resident engine. -/
def svcReadyEx : WebLLM.ServiceState :=
  { engine := some 1, ready := true, initStartTime := 0 }

/-- A service with no resident engine and not ready. -/
def svcNotReadyEx : WebLLM.ServiceState :=
  { engine := none, ready := false, initStartTime := 0 }

/-
  Claim C1: title derivation on the first user message.
-/

/-- Helper: the length of a truncated generated title is exactly 53. -/
theorem generateTitle_length_of_gt (content : String)
    (h : 50 < content.length) : (Store.generateTitle content).length = 53 := by
  have hn : ¬ content.length ≤ 50 := not_le.mpr h
  unfold Store.generateTitle
  simp only [hn, if_false]
  rw [String.length_append]
  have h1 : (String.mk (content.data.take 50)).length = (content.data.take 50).length := rfl
  have h2 : content.length = content.data.length := rfl
  rw [h1, List.length_take, ← h2, min_eq_left (le_of_lt h)]
  decide

/-- Helper: a list of messages with no user-role member yields false under
the any scan used by addMessage. -/
theorem any_isUser_eq_false_of_no_user (l : List ChatMessage)
    (h : ∀ m ∈ l, m.role ≠ Role.user) :
    l.any (fun m => m.role.isUser) = false := by
  rw [List.any_eq_false]
  intro m hm
  have hne := h m hm
  cases hr : m.role
  · exact absurd hr hne
  · simp [hr, Role.isUser]
  · simp [hr, Role.isUser]

/-- Helper: a list of messages containing a user-role member yields true
under the any scan used by addMessage. -/
theorem any_isUser_eq_true_of_user (l : List ChatMessage)
    (h : ∃ m ∈ l, m.role = Role.user) :
    l.any (fun m => m.role.isUser) = true := by
  rw [List.any_eq_true]
  obtain ⟨m, hm, hr⟩ := h
  exact ⟨m, hm, by simp [hr, Role.isUser]⟩

/-- Helper: the first-match decomposition used by the reducers that work
on the active conversation. -/
theorem conversations_decomposition (p : Store.Conversation → Bool)
    (f : Store.Conversation → Store.Conversation)
    (pre post : List Store.Conversation) (c : Store.Conversation)
    (hpre : ∀ d ∈ pre, p d = false) (hc : p c = true) :
    modifyFirst p f (pre ++ c :: post) = pre ++ f c :: post :=
  modifyFirst_append p f pre c post hpre hc

/-- Helper: the id comparison of the first-match predicate holds on the
matching conversation and fails on the earlier ones. -/
theorem id_beq_decomposition (cid : String) (pre : List Store.Conversation)
    (c : Store.Conversation) (hpre : ∀ d ∈ pre, d.id ≠ cid) (hc : c.id = cid) :
    (∀ d ∈ pre, (d.id == cid) = false) ∧ (c.id == cid) = true := by
  constructor
  · intro d hd
    exact beq_eq_false_iff_ne.mpr (hpre d hd)
  · exact beq_iff_eq.mpr hc

/-- C1: for a conversation in the store, appending the first user-role
message through addMessage rewrites its title to the derived title: the
content itself when its length is at most 50, and the first 50 characters
followed by the three character ellipsis marker (53 characters in total)
otherwise; appending any further message while a user-role message is
already present leaves the title unchanged. -/
theorem addMessage_title_derivation
    (s : Store.ChatState) (cid : String) (pre post : List Store.Conversation)
    (c : Store.Conversation) (msg : ChatMessage) (now : Nat)
    (hact : s.activeConversationId = some cid)
    (hsplit : s.conversations = pre ++ c :: post)
    (hpre : ∀ d ∈ pre, d.id ≠ cid)
    (hcid : c.id = cid) :
    ((msg.role = Role.user ∧ ∀ m ∈ c.messages, m.role ≠ Role.user) →
       (Store.addMessage s msg now).conversations =
         pre ++ { c with
                    messages := c.messages ++ [msg]
                    updatedAt := now
                    title := Store.generateTitle msg.content } :: post)
    ∧ (msg.content.length ≤ 50 → Store.generateTitle msg.content = msg.content)
    ∧ (50 < msg.content.length →
         Store.generateTitle msg.content =
           String.mk (msg.content.data.take 50) ++ "..."
         ∧ (Store.generateTitle msg.content).length = 53)
    ∧ ((∃ m ∈ c.messages, m.role = Role.user) →
       (Store.addMessage s msg now).conversations =
         pre ++ { c with messages := c.messages ++ [msg], updatedAt := now } :: post) := by
  obtain ⟨hpreb, hcb⟩ := id_beq_decomposition cid pre c hpre hcid
  refine ⟨?_, ?_, ?_, ?_⟩
  · rintro ⟨hrole, hnouser⟩
    show (Store.addMessage s msg now).conversations = _
    unfold Store.addMessage
    rw [hact]
    simp only [hsplit]
    rw [conversations_decomposition _ _ pre post c hpreb hcb]
    unfold Store.addMessageToConv
    rw [any_isUser_eq_false_of_no_user c.messages hnouser, hrole]
    rfl
  · intro hle
    unfold Store.generateTitle
    simp [hle]
  · intro hgt
    have hn : ¬ msg.content.length ≤ 50 := not_le.mpr hgt
    constructor
    · unfold Store.generateTitle
      simp [hn]
    · exact generateTitle_length_of_gt msg.content hgt
  · intro hex
    show (Store.addMessage s msg now).conversations = _
    unfold Store.addMessage
    rw [hact]
    simp only [hsplit]
    rw [conversations_decomposition _ _ pre post c hpreb hcb]
    unfold Store.addMessageToConv
    rw [any_isUser_eq_true_of_user c.messages hex]
    simp

/-- C1 witness: deriving the title from a short first user message in a
concrete one-conversation store. -/
theorem addMessage_title_derivation_witness :
    (Store.addMessage stateOne msgHello 9).conversations =
      [] ++ { convEmpty with
                messages := [] ++ [msgHello]
                updatedAt := 9
                title := Store.generateTitle "Hello there" } :: [] :=
  (addMessage_title_derivation stateOne "c1" [] [] convEmpty msgHello 9
      rfl rfl (by decide) rfl).1 ⟨rfl, by decide⟩

/-
  Claim C2: updatedAt refresh on mutations.
-/

/-- A store state whose only conversation has updatedAt 5. -/
def stateStale : Store.ChatState :=
  { Store.initialState with
      conversations :=
        [{ id := "c1", title := "Old", messages := [], createdAt := 0, updatedAt := 5 }]
      activeConversationId := some "c1" }

/-- C2 counterexample: updateConversationTitle mutates the title of the
conversation but leaves updatedAt at its stale value 5; the reducer takes
no clock input at all, so no title rename refreshes updatedAt. -/
theorem updateConversationTitle_stale_updatedAt :
    (Store.updateConversationTitle stateStale "c1" "Renamed").conversations =
      [{ id := "c1", title := "Renamed", messages := [], createdAt := 0, updatedAt := 5 }] := by
  decide

/-- C2 amended: addMessage, clearChat and updateMessage (when the target
message exists) set the updatedAt of the active conversation to the clock
value of the operation, while updateConversationTitle changes a title
without touching the updatedAt of any conversation; hence updatedAt is
non-decreasing across operation sequences whenever the supplied clock
values are non-decreasing. -/
theorem updatedAt_refresh_amended
    (s : Store.ChatState) (cid mid content title : String)
    (pre post : List Store.Conversation) (c : Store.Conversation)
    (msg : ChatMessage) (now : Nat)
    (hact : s.activeConversationId = some cid)
    (hsplit : s.conversations = pre ++ c :: post)
    (hpre : ∀ d ∈ pre, d.id ≠ cid)
    (hcid : c.id = cid) :
    ((Store.addMessage s msg now).conversations =
        pre ++ Store.addMessageToConv c msg now :: post
      ∧ (Store.addMessageToConv c msg now).updatedAt = now)
    ∧ (Store.clearChat s now).conversations =
        pre ++ { c with messages := [], updatedAt := now } :: post
    ∧ (c.messages.any (fun m => m.id == mid) = true →
        (Store.updateMessage s mid content now).conversations =
          pre ++ { c with
                     messages :=
                       modifyFirst (fun m => m.id == mid)
                         (fun m => { m with content := content }) c.messages
                     updatedAt := now } :: post)
    ∧ (Store.updateConversationTitle s cid title).conversations.map
        Store.Conversation.updatedAt = s.conversations.map Store.Conversation.updatedAt := by
  obtain ⟨hpreb, hcb⟩ := id_beq_decomposition cid pre c hpre hcid
  refine ⟨⟨?_, ?_⟩, ?_, ?_, ?_⟩
  · unfold Store.addMessage
    rw [hact]
    simp only [hsplit]
    rw [conversations_decomposition _ _ pre post c hpreb hcb]
  · unfold Store.addMessageToConv
    by_cases h : (msg.role.isUser && !(c.messages.any (fun m => m.role.isUser))) = true
    · rw [if_pos h]
    · rw [if_neg h]
  · unfold Store.clearChat
    rw [hact]
    simp only [hsplit]
    rw [conversations_decomposition _ _ pre post c hpreb hcb]
  · intro hfound
    unfold Store.updateMessage
    rw [hact]
    simp only [hsplit]
    rw [conversations_decomposition _ _ pre post c hpreb hcb]
    simp only [hfound, if_true]
  · unfold Store.updateConversationTitle
    exact modifyFirst_map_eq (fun (c : Store.Conversation) => c.id == cid)
      (fun c => { c with title := title }) Store.Conversation.updatedAt
      (fun d => rfl) s.conversations

/-- C2 amended witness: the three message mutations refresh updatedAt to
the clock value on a concrete store while the rename leaves the stale
timestamps in place. -/
theorem updatedAt_refresh_amended_witness :
    ((Store.addMessage stateStale msgHello 11).conversations =
        [] ++ Store.addMessageToConv
          { id := "c1", title := "Old", messages := [], createdAt := 0, updatedAt := 5 }
          msgHello 11 :: []
      ∧ (Store.addMessageToConv
          { id := "c1", title := "Old", messages := [], createdAt := 0, updatedAt := 5 }
          msgHello 11).updatedAt = 11)
    ∧ (Store.clearChat stateStale 11).conversations =
        [] ++ { id := "c1", title := "Old", messages := ([] : List ChatMessage)
                createdAt := 0, updatedAt := 11 } :: []
    ∧ (([] : List ChatMessage).any (fun m => m.id == "m1") = true →
        (Store.updateMessage stateStale "m1" "x" 11).conversations =
          [] ++ { id := "c1", title := "Old"
                  messages :=
                    modifyFirst (fun m => m.id == "m1")
                      (fun m => { m with content := "x" }) ([] : List ChatMessage)
                  createdAt := 0, updatedAt := 11 } :: [])
    ∧ (Store.updateConversationTitle stateStale "c1" "Renamed").conversations.map
        Store.Conversation.updatedAt = stateStale.conversations.map
        Store.Conversation.updatedAt :=
  updatedAt_refresh_amended stateStale "c1" "m1" "x" "Renamed" [] []
    { id := "c1", title := "Old", messages := [], createdAt := 0, updatedAt := 5 }
    msgHello 11 rfl rfl (by decide) rfl

/-
  Claim C6: active-conversation selection after deleteConversation.
-/

/-- C6: deleting the only conversation empties the collection and clears
the selection (under the documented invariant that a non-empty collection
has its active id among its members or transiently none); deleting the
active conversation when others remain promotes the first remaining
conversation in store order; deleting a non-active conversation never
changes the selection. -/
theorem deleteConversation_selection (s : Store.ChatState) (cid : String) :
    (s.conversations.map Store.Conversation.id = [cid] →
      (s.activeConversationId = none ∨ s.activeConversationId = some cid) →
      (Store.deleteConversation s cid).conversations = []
      ∧ (Store.deleteConversation s cid).activeConversationId = none)
    ∧ (∀ pre c post, s.conversations = pre ++ c :: post →
        (∀ d ∈ pre, d.id ≠ cid) → c.id = cid →
        s.activeConversationId = some cid → pre ++ post ≠ [] →
        (Store.deleteConversation s cid).conversations = pre ++ post
        ∧ (Store.deleteConversation s cid).activeConversationId =
            ((pre ++ post).head?).map Store.Conversation.id)
    ∧ (s.activeConversationId ≠ some cid →
        (Store.deleteConversation s cid).activeConversationId =
          s.activeConversationId) := by
  refine ⟨?_, ?_, ?_⟩
  · intro hmap hinv
    match hs : s.conversations, hmap2 : hmap with
    | [c], _ =>
        have hcid : c.id = cid := by
          rw [hs] at hmap
          simpa using hmap
        have hfind : s.conversations.findIdx? (fun c => c.id == cid) = some 0 := by
          rw [hs]
          have := findIdx_append_cons (fun (d : Store.Conversation) => d.id == cid)
            [] c [] (by intro d hd; exact absurd hd (List.not_mem_nil d))
            (beq_iff_eq.mpr hcid)
          simpa using this
        unfold Store.deleteConversation
        rw [hfind]
        rcases hinv with hnone | hsome
        · have hne : (s.activeConversationId == some cid) = false := by
            rw [hnone]; rfl
          rw [hne]
          simp [hs, hnone]
        · have heq : (s.activeConversationId == some cid) = true := by
            rw [hsome]; exact beq_self_eq_true (some cid)
          rw [heq]
          simp [hs]
  · intro pre c post hsplit hpre hcid hact hne
    obtain ⟨hpreb, hcb⟩ := id_beq_decomposition cid pre c hpre hcid
    have hfind : s.conversations.findIdx? (fun c => c.id == cid) = some pre.length := by
      rw [hsplit]
      exact findIdx_append_cons _ pre c post hpreb hcb
    have heq : (s.activeConversationId == some cid) = true := by
      rw [hact]; exact beq_self_eq_true (some cid)
    unfold Store.deleteConversation
    rw [hfind]
    simp [heq, hsplit, eraseIdx_append_cons]
  · intro hne
    have hbe : (s.activeConversationId == some cid) = false :=
      beq_eq_false_iff_ne.mpr hne
    unfold Store.deleteConversation
    cases hfind : s.conversations.findIdx? (fun c => c.id == cid) with
    | none => rfl
    | some i => simp [hbe]

/-- C6 witness: deleting the active middle conversation of three promotes
the first remaining one. -/
theorem deleteConversation_selection_witness :
    (Store.deleteConversation stateThree "c2").conversations = [convEmpty] ++ [convThree]
    ∧ (Store.deleteConversation stateThree "c2").activeConversationId =
        (([convEmpty] ++ [convThree]).head?).map Store.Conversation.id :=
  (deleteConversation_selection stateThree "c2").2.1 [convEmpty] convTwo [convThree]
    rfl (by decide) rfl rfl (by decide)

/-
  Claim C10: title re-derivation after clearChat.
-/

/-- C10: after clearChat has emptied the active conversation log, the next
user-role message appended through addMessage re-derives the title from
its content, overwriting whatever title the conversation had, including a
title previously set through updateConversationTitle. -/
theorem clearChat_addMessage_rederives_title
    (s : Store.ChatState) (cid : String) (pre post : List Store.Conversation)
    (c : Store.Conversation) (msg : ChatMessage) (now1 now2 : Nat)
    (hact : s.activeConversationId = some cid)
    (hsplit : s.conversations = pre ++ c :: post)
    (hpre : ∀ d ∈ pre, d.id ≠ cid)
    (hcid : c.id = cid)
    (hrole : msg.role = Role.user) :
    (Store.addMessage (Store.clearChat s now1) msg now2).conversations =
      pre ++ { c with
                 messages := [msg]
                 updatedAt := now2
                 title := Store.generateTitle msg.content } :: post := by
  obtain ⟨hpreb, hcb⟩ := id_beq_decomposition cid pre c hpre hcid
  have hconv1 := conversations_decomposition (fun d => d.id == cid)
    (fun (d : Store.Conversation) => { d with messages := [], updatedAt := now1 })
    pre post c hpreb hcb
  have hconv2 := conversations_decomposition (fun d => d.id == cid)
    (fun d => Store.addMessageToConv d msg now2)
    pre post { c with messages := [], updatedAt := now1 } hpreb hcb
  simp only [Store.clearChat, Store.addMessage, hact, hsplit, hconv1, hconv2]
  unfold Store.addMessageToConv
  simp [hrole, Role.isUser]

/-- C10 witness: a conversation explicitly renamed, then cleared, has its
title overwritten by the next user message. -/
theorem clearChat_addMessage_rederives_title_witness :
    (Store.addMessage
        (Store.clearChat
          (Store.updateConversationTitle stateOne "c1" "My Renamed Title") 20)
        msgHello 21).conversations =
      [] ++ { convEmpty with
                title := Store.generateTitle "Hello there"
                messages := [msgHello]
                updatedAt := 21 } :: [] := by
  have happ := clearChat_addMessage_rederives_title
    (Store.updateConversationTitle stateOne "c1" "My Renamed Title") "c1" [] []
    { convEmpty with title := "My Renamed Title" } msgHello 20 21
    rfl (by decide) (by decide) rfl rfl
  rw [happ]
  decide

/-
  Claim C7: engine residency discipline of initialize.
-/

/-- C7: when an engine is resident and ready, initialize first unloads it
(the pre-construction state holds no engine and is not ready) and the call
emits exactly one unload followed by exactly one construction; when no
engine is loaded no unload is emitted; on construction failure the handle
is not ready, holds no engine, and the underlying failure is returned
unchanged; after a successful call a second call emits exactly one unload
followed by one construction; and a ready handle always holds an engine
(the state holds at most one engine by construction). -/
theorem initEngine_single_engine (svc : WebLLM.ServiceState)
    (outcome : Except JsError Nat) (now : Nat) :
    (svc.ready = true → svc.engine.isSome = true →
      (WebLLM.unloadIfLoaded svc).1.engine = none
      ∧ (WebLLM.unloadIfLoaded svc).1.ready = false
      ∧ (WebLLM.initEngine svc outcome now).2.1 =
          [WebLLM.EngineEvent.unload, WebLLM.EngineEvent.construct])
    ∧ (svc.ready = false ∨ svc.engine = none →
      (WebLLM.initEngine svc outcome now).2.1 = [WebLLM.EngineEvent.construct])
    ∧ (∀ err, outcome = Except.error err →
      (WebLLM.initEngine svc outcome now).1.ready = false
      ∧ (WebLLM.initEngine svc outcome now).1.engine = none
      ∧ (WebLLM.initEngine svc outcome now).2.2 = some err)
    ∧ (∀ e, outcome = Except.ok e →
      (WebLLM.initEngine svc outcome now).1.engine = some e
      ∧ (WebLLM.initEngine svc outcome now).1.ready = true
      ∧ (WebLLM.initEngine svc outcome now).2.2 = none)
    ∧ (∀ e, outcome = Except.ok e → ∀ outcome2 now2,
      (WebLLM.initEngine (WebLLM.initEngine svc outcome now).1 outcome2 now2).2.1 =
        [WebLLM.EngineEvent.unload, WebLLM.EngineEvent.construct])
    ∧ ((WebLLM.initEngine svc outcome now).1.ready = true →
      (WebLLM.initEngine svc outcome now).1.engine.isSome = true) := by
  refine ⟨?_, ?_, ?_, ?_, ?_, ?_⟩
  · intro hready hsome
    refine ⟨?_, ?_, ?_⟩
    · simp [WebLLM.unloadIfLoaded, hready, hsome]
    · simp [WebLLM.unloadIfLoaded, hready, hsome]
    · cases outcome with
      | ok e => simp [WebLLM.initEngine, WebLLM.unloadIfLoaded, hready, hsome]
      | error err => simp [WebLLM.initEngine, WebLLM.unloadIfLoaded, hready, hsome]
  · intro hnot
    have hcond : (svc.ready && svc.engine.isSome) = false := by
      rcases hnot with h | h
      · simp [h]
      · simp [h]
    cases outcome with
    | ok e => simp [WebLLM.initEngine, WebLLM.unloadIfLoaded, hcond]
    | error err => simp [WebLLM.initEngine, WebLLM.unloadIfLoaded, hcond]
  · intro err herr
    subst herr
    refine ⟨?_, ?_, ?_⟩ <;> simp [WebLLM.initEngine]
  · intro e he
    subst he
    refine ⟨?_, ?_, ?_⟩ <;> simp [WebLLM.initEngine]
  · intro e he outcome2 now2
    subst he
    cases outcome2 with
    | ok e2 => simp [WebLLM.initEngine, WebLLM.unloadIfLoaded]
    | error err2 => simp [WebLLM.initEngine, WebLLM.unloadIfLoaded]
  · intro hready
    cases outcome with
    | ok e => simp [WebLLM.initEngine]
    | error err =>
        exfalso
        simp [WebLLM.initEngine] at hready

/-- C7 witness: a second initialize call on a handle made ready by a first
successful call performs exactly one unload followed by one construction. -/
theorem initEngine_single_engine_witness :
    (WebLLM.initEngine (WebLLM.initEngine WebLLM.freshService (Except.ok 1) 0).1
        (Except.ok 2) 5).2.1 =
      [WebLLM.EngineEvent.unload, WebLLM.EngineEvent.construct] :=
  (initEngine_single_engine WebLLM.freshService (Except.ok 1) 0).2.2.2.2.1 1 rfl
    (Except.ok 2) 5

/-
  Claim C4: chat and responses without usable content.
-/

/-- C4 counterexample: with a ready engine, a response whose first choice
carries the empty string as content makes chat resolve successfully with
the empty string; the distinct failure is reserved for content that is
null or undefined, so chat can resolve with a silent empty string. -/
theorem chat_empty_string_counterexample :
    WebLLM.chat svcReadyEx (Except.ok ⟨[⟨⟨some ""⟩⟩]⟩) = Except.ok "" := rfl

/-- C4 amended: with a ready engine, chat fails with the distinct missing
content failure exactly when the response carries no content value (no
choices, or a null or undefined content); when a content string is present
chat resolves with it, including the empty string. -/
theorem chat_missing_content_amended (svc : WebLLM.ServiceState)
    (resp : WebLLM.EngineResponse)
    (hready : svc.ready = true) (heng : svc.engine.isSome = true) :
    (resp.firstContent = none →
      WebLLM.chat svc (Except.ok resp) =
        Except.error (JsError.plain "No content in response"))
    ∧ (∀ text, resp.firstContent = some text →
      WebLLM.chat svc (Except.ok resp) = Except.ok text) := by
  have hguard : (svc.engine.isNone || !svc.ready) = false := by
    have : svc.engine.isNone = false := by
      cases heg : svc.engine with
      | none => rw [heg] at heng; simp at heng
      | some e => simp [Option.isNone]
    simp [this, hready]
  constructor
  · intro hnone
    simp [WebLLM.chat, hguard, hnone]
  · intro text htext
    simp [WebLLM.chat, hguard, htext]

/-- C4 witness: a present non-empty content string resolves as itself on a
concrete ready service. -/
theorem chat_missing_content_amended_witness :
    WebLLM.chat svcReadyEx (Except.ok ⟨[⟨⟨some "hi"⟩⟩]⟩) = Except.ok "hi" :=
  (chat_missing_content_amended svcReadyEx ⟨[⟨⟨some "hi"⟩⟩]⟩ rfl rfl).2 "hi" rfl

/-
  Claim C3: the sendMessage guard.
-/

/-- C3 counterexample: with a service handle that is present but whose
engine is not ready, sendMessage of non-blank text is not a no-op: a user
message is appended, the chat method is invoked (and fails with the not
initialized error, recorded in the error field). -/
theorem sendMessage_not_ready_counterexample :
    (Hooks.sendMessage Slice.initialState (some svcNotReadyEx)
        (Except.ok ⟨[]⟩) "hi" 1 2).state.messages =
      [{ id := "user-1", role := Role.user, content := "hi", timestamp := 1 }]
    ∧ (Hooks.sendMessage Slice.initialState (some svcNotReadyEx)
        (Except.ok ⟨[]⟩) "hi" 1 2).state.error = some "Engine not initialized"
    ∧ (Hooks.sendMessage Slice.initialState (some svcNotReadyEx)
        (Except.ok ⟨[]⟩) "hi" 1 2).chatInvoked = true := by
  refine ⟨?_, ?_, ?_⟩ <;> rfl

/-- C3 amended: sendMessage is a no-op (state unchanged, chat never
invoked) exactly when the trimmed text is empty or the service handle is
absent; when a handle is present but its engine is not ready, the user
message is still appended, chat is invoked, and the not initialized
failure message is recorded with the generating flag cleared. -/
theorem sendMessage_guard_amended (s : Slice.ChatState)
    (svc : Option WebLLM.ServiceState)
    (er : Except JsError WebLLM.EngineResponse)
    (content : String) (nowU nowA : Nat) :
    ((jsTrim content).isEmpty = true →
      Hooks.sendMessage s svc er content nowU nowA = ⟨s, false⟩)
    ∧ (svc = none → Hooks.sendMessage s svc er content nowU nowA = ⟨s, false⟩)
    ∧ (∀ st, svc = some st → (jsTrim content).isEmpty = false →
        (st.ready = false ∨ st.engine = none) →
        (Hooks.sendMessage s svc er content nowU nowA).state.messages =
          s.messages ++ [{ id := "user-" ++ toString nowU, role := Role.user,
                           content := jsTrim content, timestamp := nowU }]
        ∧ (Hooks.sendMessage s svc er content nowU nowA).state.error =
            some "Engine not initialized"
        ∧ (Hooks.sendMessage s svc er content nowU nowA).state.isLoading = false
        ∧ (Hooks.sendMessage s svc er content nowU nowA).chatInvoked = true) := by
  refine ⟨?_, ?_, ?_⟩
  · intro hempty
    simp [Hooks.sendMessage, hempty]
  · intro hnone
    subst hnone
    simp [Hooks.sendMessage]
  · intro st hsome hne hnot
    subst hsome
    have hguard : (st.engine.isNone || !st.ready) = true := by
      rcases hnot with h | h
      · simp [h]
      · simp [h, Option.isNone]
    have hchat : WebLLM.chat st er =
        Except.error (JsError.webllm "Engine not initialized"
          WebLLMErrorType.NOT_INITIALIZED) := by
      simp [WebLLM.chat, hguard]
    refine ⟨?_, ?_, ?_, ?_⟩ <;>
      simp [Hooks.sendMessage, hne, hchat, Slice.addMessage, Slice.setLoading,
        Slice.setError, JsError.message]

/-- C3 witness: the guarded branch of sendMessage at a concrete state with
a present but not ready service handle. -/
theorem sendMessage_guard_amended_witness :
    (Hooks.sendMessage stateSliceErr (some svcNotReadyEx)
        (Except.ok ⟨[]⟩) " ping " 3 4).state.messages =
      stateSliceErr.messages ++
        [{ id := "user-" ++ toString 3, role := Role.user,
           content := jsTrim " ping ", timestamp := 3 }]
    ∧ (Hooks.sendMessage stateSliceErr (some svcNotReadyEx)
        (Except.ok ⟨[]⟩) " ping " 3 4).state.error = some "Engine not initialized"
    ∧ (Hooks.sendMessage stateSliceErr (some svcNotReadyEx)
        (Except.ok ⟨[]⟩) " ping " 3 4).state.isLoading = false
    ∧ (Hooks.sendMessage stateSliceErr (some svcNotReadyEx)
        (Except.ok ⟨[]⟩) " ping " 3 4).chatInvoked = true :=
  (sendMessage_guard_amended stateSliceErr (some svcNotReadyEx)
      (Except.ok ⟨[]⟩) " ping " 3 4).2.2 svcNotReadyEx rfl (by decide)
    (Or.inl rfl)

/-
  Claim C5: turn outcome reconciliation in sendMessage.
-/

/-- C5: when the chat invocation fails, the appended user message remains
in the log, the failure message is recorded, no assistant message is
appended, and the generating flag is cleared; when the chat invocation
succeeds, exactly one assistant message carrying the returned text is
appended after the user message, the error field is cleared (regardless of
any previous error), and the generating flag is cleared. -/
theorem sendMessage_failure_success (s : Slice.ChatState)
    (st : WebLLM.ServiceState) (er : Except JsError WebLLM.EngineResponse)
    (content : String) (nowU nowA : Nat)
    (hne : (jsTrim content).isEmpty = false) :
    (∀ e, WebLLM.chat st er = Except.error e →
      (Hooks.sendMessage s (some st) er content nowU nowA).state.messages =
        s.messages ++ [{ id := "user-" ++ toString nowU, role := Role.user,
                         content := jsTrim content, timestamp := nowU }]
      ∧ (Hooks.sendMessage s (some st) er content nowU nowA).state.error =
          some e.message
      ∧ (Hooks.sendMessage s (some st) er content nowU nowA).state.isLoading = false)
    ∧ (∀ text, WebLLM.chat st er = Except.ok text →
      (Hooks.sendMessage s (some st) er content nowU nowA).state.messages =
        s.messages ++ [{ id := "user-" ++ toString nowU, role := Role.user,
                         content := jsTrim content, timestamp := nowU },
                       { id := "assistant-" ++ toString nowA, role := Role.assistant,
                         content := text, timestamp := nowA }]
      ∧ (Hooks.sendMessage s (some st) er content nowU nowA).state.error = none
      ∧ (Hooks.sendMessage s (some st) er content nowU nowA).state.isLoading = false) := by
  constructor
  · intro e he
    refine ⟨?_, ?_, ?_⟩ <;>
      simp [Hooks.sendMessage, hne, he, Slice.addMessage, Slice.setLoading,
        Slice.setError]
  · intro text htext
    refine ⟨?_, ?_, ?_⟩ <;>
      simp [Hooks.sendMessage, hne, htext, Slice.addMessage, Slice.setLoading,
        Slice.setError]

/-- C5 witness: a successful call on a state carrying a previous error
appends exactly one assistant message and clears the error. -/
theorem sendMessage_failure_success_witness :
    (Hooks.sendMessage stateSliceErr (some svcReadyEx)
        (Except.ok ⟨[⟨⟨some "pong"⟩⟩]⟩) "ping" 3 4).state.messages =
      stateSliceErr.messages ++
        [{ id := "user-" ++ toString 3, role := Role.user,
           content := jsTrim "ping", timestamp := 3 },
         { id := "assistant-" ++ toString 4, role := Role.assistant,
           content := "pong", timestamp := 4 }]
    ∧ (Hooks.sendMessage stateSliceErr (some svcReadyEx)
        (Except.ok ⟨[⟨⟨some "pong"⟩⟩]⟩) "ping" 3 4).state.error = none
    ∧ (Hooks.sendMessage stateSliceErr (some svcReadyEx)
        (Except.ok ⟨[⟨⟨some "pong"⟩⟩]⟩) "ping" 3 4).state.isLoading = false :=
  (sendMessage_failure_success stateSliceErr svcReadyEx
      (Except.ok ⟨[⟨⟨some "pong"⟩⟩]⟩) "ping" 3 4 (by decide)).2 "pong" rfl

/-
  Claim C8: the loadModel state machine.
-/

/-- Helper: folding progress dispatches over the slice only rewrites the
loadProgress field, which ends at the value of the last event. -/
theorem foldl_setLoadProgress (g : Rat → Int) (l : List Rat)
    (s1 : Slice.ChatState) :
    l.foldl (fun st p => Slice.setLoadProgress st (g p)) s1 =
      { s1 with loadProgress :=
          match l.getLast? with
          | none => s1.loadProgress
          | some p => g p } := by
  induction l generalizing s1 with
  | nil => rfl
  | cons p ps ih =>
      rw [List.foldl_cons, ih]
      cases ps with
      | nil => rfl
      | cons q qs =>
          rw [List.getLast?_cons_cons]
          cases hq : (q :: qs).getLast? with
          | none =>
              rw [List.getLast?_eq_none_iff] at hq
              exact absurd hq (List.cons_ne_nil q qs)
          | some r => rfl

/-- C8 counterexample: entering the loading state does not clear the error
field; a stale failure message survives both the transition to loading and
a subsequent successful load. -/
theorem loadModel_keeps_stale_error_counterexample :
    (Hooks.loadModelEnterLoading
        { Slice.initialState with error := some "boom" }).error = some "boom"
    ∧ (Hooks.loadModel { Slice.initialState with error := some "boom" } []
        (Except.ok 1)).error = some "boom" := by
  exact ⟨rfl, rfl⟩

/-- C8 amended: the transition to loading resets loadProgress to 0 and
sets the status, leaving the error field unchanged (it is not cleared); on
success the status becomes ready, loadProgress 100, and the error field is
still left unchanged; on failure the status becomes error, the failure
message is recorded, and loadProgress stays at the value mapped from the
last progress event (0 when none fired). -/
theorem loadModel_amended (s : Slice.ChatState) (events : List Rat)
    (outcome : Except JsError Nat) :
    ((Hooks.loadModelEnterLoading s).modelStatus = ModelStatus.loading
      ∧ (Hooks.loadModelEnterLoading s).loadProgress = 0
      ∧ (Hooks.loadModelEnterLoading s).error = s.error)
    ∧ (∀ e, outcome = Except.ok e →
        (Hooks.loadModel s events outcome).modelStatus = ModelStatus.ready
        ∧ (Hooks.loadModel s events outcome).loadProgress = 100
        ∧ (Hooks.loadModel s events outcome).error = s.error)
    ∧ (∀ err, outcome = Except.error err →
        (Hooks.loadModel s events outcome).modelStatus = ModelStatus.error
        ∧ (Hooks.loadModel s events outcome).error = some err.message
        ∧ (Hooks.loadModel s events outcome).loadProgress =
            (match events.getLast? with
             | none => 0
             | some p => WebLLM.progressPercent p)) := by
  refine ⟨⟨rfl, rfl, rfl⟩, ?_, ?_⟩
  · intro e he
    subst he
    refine ⟨?_, ?_, ?_⟩ <;>
      · simp only [Hooks.loadModel, Hooks.loadModelEnterLoading,
          foldl_setLoadProgress]
        simp [Slice.setLoadProgress, Slice.setModelStatus, Slice.setError]
  · intro err herr
    subst herr
    refine ⟨?_, ?_, ?_⟩ <;>
      · simp only [Hooks.loadModel, Hooks.loadModelEnterLoading,
          foldl_setLoadProgress]
        simp [Slice.setLoadProgress, Slice.setModelStatus, Slice.setError]

/-- C8 witness: a successful load on a state with a stale error reaches
the ready status with full progress while the stale error survives. -/
theorem loadModel_amended_witness :
    (Hooks.loadModel stateSliceErr [] (Except.ok 5)).modelStatus = ModelStatus.ready
    ∧ (Hooks.loadModel stateSliceErr [] (Except.ok 5)).loadProgress = 100
    ∧ (Hooks.loadModel stateSliceErr [] (Except.ok 5)).error = stateSliceErr.error :=
  (loadModel_amended stateSliceErr [] (Except.ok 5)).2.1 5 rfl

/-
  Claim C9: range of the stored load progress.
-/

/-- C9 counterexample: an engine-reported fractional progress of 2 (outside
the unit interval) is stored as 200, violating the claimed [0,100] range;
the mapping applies rounding but no clamping. -/
theorem loadProgress_out_of_range_counterexample :
    (Hooks.loadModel Slice.initialState [(2 : Rat)]
        (Except.error (JsError.plain "fail"))).loadProgress = 200
    ∧ ¬ ((200 : Int) ≤ 100) := by
  constructor
  · rw [show [(2 : Rat)] = [] ++ [(2 : Rat)] from rfl]
    simp [Hooks.loadModel, Hooks.loadModelEnterLoading, foldl_setLoadProgress,
      Slice.setLoadProgress, Slice.setModelStatus, Slice.setError,
      List.getLast?_concat, WebLLM.progressPercent, WebLLM.jsRound]
    norm_num
  · decide

/-- C9 amended: the stored progress value equals the rounded percentage of
the last reported fraction, and it lies within [0,100] whenever the
reported fraction lies within [0,1]; fractions outside [0,1] are not
clamped. -/
theorem loadProgress_bounds_amended (s : Slice.ChatState) (ps : List Rat)
    (p : Rat) (err : JsError) (h0 : 0 ≤ p) (h1 : p ≤ 1) :
    (Hooks.loadModel s (ps ++ [p]) (Except.error err)).loadProgress =
      WebLLM.progressPercent p
    ∧ 0 ≤ WebLLM.progressPercent p ∧ WebLLM.progressPercent p ≤ 100 := by
  refine ⟨?_, ?_, ?_⟩
  · simp [Hooks.loadModel, Hooks.loadModelEnterLoading, foldl_setLoadProgress,
      Slice.setLoadProgress, Slice.setModelStatus, Slice.setError,
      List.getLast?_concat]
  · apply Int.le_floor.mpr
    push_cast
    nlinarith
  · have h2 : WebLLM.progressPercent p < 101 := by
      apply Int.floor_lt.mpr
      push_cast
      nlinarith
    omega

/-- C9 witness: the bound at the concrete fraction 1 stored through a
concrete loadModel run. -/
theorem loadProgress_bounds_amended_witness :
    (Hooks.loadModel Slice.initialState ([] ++ [(1 : Rat)])
        (Except.error (JsError.plain "x"))).loadProgress =
      WebLLM.progressPercent 1
    ∧ 0 ≤ WebLLM.progressPercent 1 ∧ WebLLM.progressPercent 1 ≤ 100 :=
  loadProgress_bounds_amended Slice.initialState [] 1 (JsError.plain "x")
    zero_le_one le_rfl

end DeepseekChat
